import Mathlib

/-!
Shallow embedding of the dev-connector REST backend (Express + Mongoose
routes) and verification of its specification claims.

The route handlers in `src/routes/api/*.js` and the auth middleware are
translated into pure Lean functions.  The persistence layer (MongoDB via
Mongoose) is modelled as explicit lists of documents threaded through the
handlers; external collaborators (jwt signing/verification, bcrypt
hashing/comparison, gravatar, ObjectId well-formedness) are abstract
function parameters.  A thrown JavaScript exception that lands in a
handler's catch-all block is modelled by the 500 "Server Error" response
that block produces.
-/

namespace DevConnector

/-! ### JavaScript array primitives used by the handlers

`Array.prototype.indexOf` returns the index of the first occurrence, or
-1 when absent.  `Array.prototype.splice(start, 1)` with a negative
`start` counts from the end (clamped at 0), and removes at most one
element at the resulting position. -/

/-- JS `arr.indexOf(x)`: index of first occurrence, `-1` if absent. -/
def jsIndexOf (l : List String) (x : String) : Int :=
  match l.findIdx? (fun y => y == x) with
  | some i => (i : Int)
  | none => -1

/-- JS `arr.splice(i, 1)` (returning the mutated array): negative `i`
counts from the end, clamped at 0; an out-of-range nonnegative `i`
removes nothing. -/
def jsSplice1 {α : Type} (l : List α) (i : Int) : List α :=
  let start : Nat := if i < 0 then ((l.length : Int) + i).toNat else min i.toNat l.length
  l.take start ++ l.drop (start + 1)

/-! ### Documents

Mongoose models `User`, `Profile`, `Post` are not under `src/`; their
shapes are modelled from the spec (§3 DATA MODEL): users have id, name,
email, avatar, hashed password; profiles have scalar fields, a skills
list, a `social` mapping and experience/education sub-lists whose entries
carry a system-generated identifier; posts have denormalized author
fields, a like list and a comment list whose entries carry a
system-generated identifier. -/

/-- Modelled from the spec: the User document (identifier, name, unique
email, hashed password, derived avatar URL). -/
structure User where
  id : String
  name : String
  email : String
  avatar : String
  password : String
deriving DecidableEq, Repr

/-- Modelled from the spec: an experience entry; `id` is the
system-generated subdocument identifier minted by the persistence
layer.  `currrent` keeps the source's spelling. -/
structure Experience where
  id : String
  title : Option String := none
  company : Option String := none
  location : Option String := none
  fromDate : Option String := none
  toDate : Option String := none
  currrent : Option String := none
  description : Option String := none
deriving DecidableEq, Repr

/-- Modelled from the spec: an education entry; `id` is the
system-generated subdocument identifier. -/
structure Education where
  id : String
  school : Option String := none
  degree : Option String := none
  fieldofstudy : Option String := none
  fromDate : Option String := none
  toDate : Option String := none
  currrent : Option String := none
  description : Option String := none
deriving DecidableEq, Repr

/-- The `social` sub-object of a profile: five optional link fields. -/
structure Social where
  youtube : Option String := none
  twitter : Option String := none
  facebook : Option String := none
  linkedin : Option String := none
  instagram : Option String := none
deriving DecidableEq, Repr

/-- Modelled from the spec: the Profile document, one-to-one with a user. -/
structure Profile where
  user : String
  company : Option String := none
  website : Option String := none
  location : Option String := none
  bio : Option String := none
  status : String
  skills : List String
  githubusername : Option String := none
  social : Social := {}
  experience : List Experience := []
  education : List Education := []
deriving DecidableEq, Repr

/-- A like entry: just a user reference. -/
structure LikeEntry where
  user : String
deriving DecidableEq, Repr

/-- Modelled from the spec: a comment entry; `id` is the system-generated
subdocument identifier. -/
structure Comment where
  id : String
  text : String
  name : String
  avatar : String
  user : String
deriving DecidableEq, Repr

/-- Modelled from the spec: the Post document with denormalized author
name/avatar and like/comment sub-lists. -/
structure Post where
  id : String
  text : String
  name : String
  avatar : String
  user : String
  likes : List LikeEntry := []
  comments : List Comment := []
deriving DecidableEq, Repr

/-! ### HTTP responses -/

/-- The JSON (or plain-text) bodies the embedded handlers produce. -/
inductive Body where
  | token (t : String)
  | errMsgs (msgs : List String)
  | msg (m : String)
  | text (m : String)
  | likesList (l : List LikeEntry)
  | commentList (l : List Comment)
  | postDoc (p : Post)
  | profileDoc (p : Profile)
deriving DecidableEq, Repr

/-- An HTTP response: status code plus body. -/
structure Resp where
  status : Nat
  body : Body
deriving DecidableEq, Repr

/-! ### Credential Verifier (`middleware/auth.js`)

`jwt.verify` either returns the decoded payload or throws; it is
modelled as a function into `Option Payload`.  On success the middleware
attaches `decoded.user` to the request and calls `next()`; this is the
`Sum.inr` case. -/

/-- The `{id}` object nested under `user` in a token payload. -/
structure PayloadUser where
  id : String
deriving DecidableEq, Repr

/-- The payload signed into a token: `{ user: { id } }`. -/
structure Payload where
  user : PayloadUser
deriving DecidableEq, Repr

/-- What the handlers pass to `jwt.sign`: the payload and the
`expiresIn` option (seconds). -/
structure SignReq where
  payload : Payload
  expiresIn : Nat
deriving DecidableEq, Repr

/-- The auth middleware from `middleware/auth.js`: reads the
`x-auth-token` header; missing header rejects 401, failed verification
rejects 401, success attaches the payload's `user` and proceeds. -/
def authMiddleware (verify : String → Option Payload) (header : Option String) :
    Resp ⊕ PayloadUser :=
  match header with
  | none => Sum.inl ⟨401, Body.msg "No token, authorization denied"⟩
  | some tok =>
    match verify tok with
    | none => Sum.inl ⟨401, Body.msg "Token is not valid"⟩
    | some decoded => Sum.inr decoded.user

/-! ### User Directory (`routes/api/users.js`, `routes/api/auth.js`)

`errs` is the outcome of the express-validator checks (empty = passed);
`grav` models `gravatar.url`, `hash` models `bcrypt.genSalt` +
`bcrypt.hash`, `cmp` models `bcrypt.compare`, `sign` models `jwt.sign`
(where a callback error becomes the 500 branch), and `newId` is the
identifier the persistence layer mints for the saved document. -/

/-- `POST api/users` (register): duplicate email rejects 400; otherwise
the user is saved with gravatar avatar and hashed password, then a token
over `{user: {id}}` with `expiresIn: 360000` is signed and returned. -/
def register (errs : List String) (grav : String → String) (hash : String → String)
    (sign : SignReq → Except Unit String) (newId : String)
    (db : List User) (name email password : String) : Resp × List User :=
  if errs.isEmpty then
    match db.find? (fun u => u.email == email) with
    | some _ => (⟨400, Body.errMsgs ["User already exists"]⟩, db)
    | none =>
      let avatar := grav email
      let u : User := ⟨newId, name, email, avatar, hash password⟩
      let db2 := db ++ [u]
      match sign ⟨⟨⟨newId⟩⟩, 360000⟩ with
      | Except.ok t => (⟨200, Body.token t⟩, db2)
      | Except.error _ => (⟨500, Body.text "Server error"⟩, db2)
  else (⟨400, Body.errMsgs errs⟩, db)

/-- `POST api/auth` (authenticate): unknown email and failed password
comparison both reject 400 with the literal `"Invalid Credentials"`;
success signs a token over `{user: {id}}` with `expiresIn: 360000`. -/
def authenticate (errs : List String) (cmp : String → String → Bool)
    (sign : SignReq → Except Unit String)
    (db : List User) (email password : String) : Resp :=
  if errs.isEmpty then
    match db.find? (fun u => u.email == email) with
    | none => ⟨400, Body.errMsgs ["Invalid Credentials"]⟩
    | some u =>
      if cmp password u.password then
        match sign ⟨⟨⟨u.id⟩⟩, 360000⟩ with
        | Except.ok t => ⟨200, Body.token t⟩
        | Except.error _ => ⟨500, Body.text "Server error"⟩
      else ⟨400, Body.errMsgs ["Invalid Credentials"]⟩
  else ⟨400, Body.errMsgs errs⟩

/-! ### Profile Service (`routes/api/profile.js`) -/

/-- The fields destructured from `req.body` in `POST api/profile`.
`none` models an absent field. -/
structure UpsertInput where
  company : Option String := none
  website : Option String := none
  location : Option String := none
  bio : Option String := none
  status : Option String := none
  githubusername : Option String := none
  skills : Option String := none
  youtube : Option String := none
  facebook : Option String := none
  twitter : Option String := none
  instagram : Option String := none
  linkedin : Option String := none
deriving DecidableEq, Repr

/-- JS truthiness for a possibly-absent string field (`if (company) ...`):
absent and empty string are falsy. -/
def truthy : Option String → Bool
  | none => false
  | some s => !(s == "")

/-- Splitting a character list at every separator occurrence, keeping
empty segments, as JS `String.prototype.split` does with a single-char
separator. -/
def splitAux (sep : Char) : List Char → List Char → List String
  | [], acc => [String.mk acc.reverse]
  | c :: cs, acc =>
    if c = sep then String.mk acc.reverse :: splitAux sep cs []
    else splitAux sep cs (c :: acc)

/-- JS `s.split(sep)` for a one-character separator. -/
def jsSplit (sep : Char) (s : String) : List String :=
  splitAux sep s.toList []

/-- JS `s.trim()`: strip whitespace from both ends. -/
def jsTrim (s : String) : String :=
  String.mk (((s.toList.dropWhile Char.isWhitespace).reverse.dropWhile
    Char.isWhitespace).reverse)

/-- `skills.split(',').map(skill => skill.trim())`. -/
def normalizeSkills (s : String) : List String :=
  (jsSplit ',' s).map jsTrim

/-- The `profileFields` object the handler builds: a key is present
(`some`) exactly when the corresponding `if (field)` fired; `social` is
assigned unconditionally, so it is always present. -/
structure ProfileFields where
  user : String
  company : Option String := none
  website : Option String := none
  location : Option String := none
  bio : Option String := none
  status : Option String := none
  githubusername : Option String := none
  skills : Option (List String) := none
  social : Social := {}
deriving DecidableEq, Repr

/-- Builds `profileFields` from the request body exactly as the handler
does (lines 52-72 of `routes/api/profile.js`). -/
def buildProfileFields (uid : String) (b : UpsertInput) : ProfileFields :=
  { user := uid
    company := if truthy b.company then b.company else none
    website := if truthy b.website then b.website else none
    location := if truthy b.location then b.location else none
    bio := if truthy b.bio then b.bio else none
    status := if truthy b.status then b.status else none
    githubusername := if truthy b.githubusername then b.githubusername else none
    skills := match b.skills with
      | some s => if !(s == "") then some (normalizeSkills s) else none
      | none => none
    social :=
      { youtube := if truthy b.youtube then b.youtube else none
        twitter := if truthy b.twitter then b.twitter else none
        facebook := if truthy b.facebook then b.facebook else none
        linkedin := if truthy b.linkedin then b.linkedin else none
        instagram := if truthy b.instagram then b.instagram else none } }

/-- MongoDB `findOneAndUpdate(..., { $set: profileFields })`: every key
present in `profileFields` overwrites the stored value; keys absent from
`profileFields` are untouched.  `social` is always a key of
`profileFields`, so the whole `social` subdocument is replaced. -/
def applySet (p : Profile) (f : ProfileFields) : Profile :=
  { user := f.user
    company := match f.company with | some v => some v | none => p.company
    website := match f.website with | some v => some v | none => p.website
    location := match f.location with | some v => some v | none => p.location
    bio := match f.bio with | some v => some v | none => p.bio
    status := match f.status with | some v => v | none => p.status
    skills := match f.skills with | some v => v | none => p.skills
    githubusername := match f.githubusername with | some v => some v | none => p.githubusername
    social := f.social
    experience := p.experience
    education := p.education }

/-- `new Profile(profileFields)` in the create branch: fields absent
from `profileFields` get the schema defaults. -/
def profileOfFields (f : ProfileFields) : Profile :=
  { user := f.user
    company := f.company
    website := f.website
    location := f.location
    bio := f.bio
    status := match f.status with | some v => v | none => ""
    skills := match f.skills with | some v => v | none => []
    githubusername := f.githubusername
    social := f.social
    experience := []
    education := [] }

/-- `profile.save()` / `findOneAndUpdate` persisting a modified profile
document back into the collection. -/
def updateProfile (db : List Profile) (p : Profile) : List Profile :=
  db.map (fun q => if q.user == p.user then p else q)

/-- `POST api/profile` (upsert): validation requires non-empty `status`
and `skills`; then `profileFields` is `$set` onto the existing profile,
or a fresh profile is created from it. -/
def upsertProfile (db : List Profile) (uid : String) (b : UpsertInput) :
    Resp × List Profile :=
  if truthy b.status && truthy b.skills then
    let f := buildProfileFields uid b
    match db.find? (fun q => q.user == uid) with
    | some p =>
      let p2 := applySet p f
      (⟨200, Body.profileDoc p2⟩, updateProfile db p2)
    | none =>
      let p2 := profileOfFields f
      (⟨200, Body.profileDoc p2⟩, db ++ [p2])
  else (⟨400, Body.errMsgs ["validation failed"]⟩, db)

/-- `DELETE api/profile/experience/:exp_id`: fetch the caller's profile
(a missing profile makes `profile.experience` throw, caught as 500),
compute `removeIndex` with JS `indexOf` (−1 when the id is absent) and
`splice(removeIndex, 1)`. -/
def removeExperience (db : List Profile) (uid expId : String) :
    Resp × List Profile :=
  match db.find? (fun q => q.user == uid) with
  | none => (⟨500, Body.text "Server Error"⟩, db)
  | some profile =>
    let removeIndex := jsIndexOf (profile.experience.map (fun item => item.id)) expId
    let p2 := { profile with experience := jsSplice1 profile.experience removeIndex }
    (⟨200, Body.profileDoc p2⟩, updateProfile db p2)

/-- `DELETE api/profile/education/:edu_id`: symmetric to experience
removal. -/
def removeEducation (db : List Profile) (uid eduId : String) :
    Resp × List Profile :=
  match db.find? (fun q => q.user == uid) with
  | none => (⟨500, Body.text "Server Error"⟩, db)
  | some profile =>
    let removeIndex := jsIndexOf (profile.education.map (fun item => item.id)) eduId
    let p2 := { profile with education := jsSplice1 profile.education removeIndex }
    (⟨200, Body.profileDoc p2⟩, updateProfile db p2)

/-! ### Feed Service (`routes/api/posts.js`)

`vd` models ObjectId well-formedness: `Post.findById` on a malformed id
throws a CastError (`err.kind === 'ObjectId'`), which the get/delete
handlers map to 404 and the like/unlike/comment handlers (which do not
inspect `err.kind`) let fall into their catch-all 500. -/

/-- `Post.findById` on a well-formed id: first document with that id. -/
def findPost (db : List Post) (pid : String) : Option Post :=
  db.find? (fun p => p.id == pid)

/-- `post.save()` persisting a modified post document back into the
collection. -/
def updatePost (db : List Post) (p : Post) : List Post :=
  db.map (fun q => if q.id == p.id then p else q)

/-- `GET api/posts/:id`: 404 on a missing post; a malformed id throws,
and the catch branch checks `err.kind` and also answers 404. -/
def getPost (vd : String → Bool) (db : List Post) (pid : String) : Resp :=
  if vd pid then
    match findPost db pid with
    | none => ⟨404, Body.msg "Post not found"⟩
    | some p => ⟨200, Body.postDoc p⟩
  else ⟨404, Body.msg "Post not found:inside the catch"⟩

/-- `DELETE api/posts/:id`: 404 on missing or malformed id, 401 when the
post's owner is not the caller, otherwise `post.remove()`. -/
def deletePost (vd : String → Bool) (db : List Post) (uid pid : String) :
    Resp × List Post :=
  if vd pid then
    match findPost db pid with
    | none => (⟨404, Body.msg "Post not found"⟩, db)
    | some post =>
      if !(post.user == uid) then (⟨401, Body.msg "User not authorized"⟩, db)
      else (⟨200, Body.msg "Post removed!"⟩, db.eraseP (fun p => p.id == pid))
  else (⟨404, Body.msg "Post not found"⟩, db)

/-- `PUT api/posts/like/:id`: the handler dereferences `post.likes`
without a null check, so a missing post (and a malformed id) ends in the
catch-all 500; an already-present like rejects 400; otherwise the like
is `unshift`ed and the updated like list returned. -/
def likePost (vd : String → Bool) (db : List Post) (uid pid : String) :
    Resp × List Post :=
  if vd pid then
    match findPost db pid with
    | none => (⟨500, Body.text "Server Error"⟩, db)
    | some post =>
      if (post.likes.filter (fun lk => lk.user == uid)).length > 0 then
        (⟨400, Body.msg "Bad Request: Post already liked"⟩, db)
      else
        let p2 := { post with likes := ⟨uid⟩ :: post.likes }
        (⟨200, Body.likesList p2.likes⟩, updatePost db p2)
  else (⟨500, Body.text "Server Error"⟩, db)

/-- `PUT api/posts/unlike/:id`: same null-deref behavior as like; a like
list without the caller rejects 400; otherwise `splice` at the JS
`indexOf` of the caller's id. -/
def unlikePost (vd : String → Bool) (db : List Post) (uid pid : String) :
    Resp × List Post :=
  if vd pid then
    match findPost db pid with
    | none => (⟨500, Body.text "Server Error"⟩, db)
    | some post =>
      if (post.likes.filter (fun lk => lk.user == uid)).length == 0 then
        (⟨400, Body.msg "Bad Request: Post has not yet been liked"⟩, db)
      else
        let removeIndex := jsIndexOf (post.likes.map (fun lk => lk.user)) uid
        let p2 := { post with likes := jsSplice1 post.likes removeIndex }
        (⟨200, Body.likesList p2.likes⟩, updatePost db p2)
  else (⟨500, Body.text "Server Error"⟩, db)

/-- `DELETE api/posts/comment/:id/:comment_id`: locates the comment by
`comment_id` (404 when absent, 401 when its owner is not the caller),
then computes the removal index by `indexOf` over the comments' OWNER
ids — the caller's first comment — and `splice`s there. -/
def removeComment (vd : String → Bool) (db : List Post) (uid pid cid : String) :
    Resp × List Post :=
  if vd pid then
    match findPost db pid with
    | none => (⟨500, Body.text "Server Error"⟩, db)
    | some post =>
      match post.comments.find? (fun c => c.id == cid) with
      | none => (⟨404, Body.msg "Comment does not exist"⟩, db)
      | some comment =>
        if !(comment.user == uid) then (⟨401, Body.msg "User not authorized"⟩, db)
        else
          let removeIndex := jsIndexOf (post.comments.map (fun c => c.user)) uid
          let p2 := { post with comments := jsSplice1 post.comments removeIndex }
          (⟨200, Body.commentList p2.comments⟩, updatePost db p2)
  else (⟨500, Body.text "Server Error"⟩, db)

/-! ### Lemmas about the JS array primitives -/

theorem findIdx?_map_comp {α β : Type} (f : α → β) (p : β → Bool) :
    ∀ l : List α, (l.map f).findIdx? p = l.findIdx? (fun a => p (f a))
  | [] => rfl
  | a :: l => by
    simp only [List.map_cons, List.findIdx?_cons, Nat.zero_add, List.findIdx?_succ,
      findIdx?_map_comp f p l]

theorem findIdx?_lt_length {α : Type} (p : α → Bool) :
    ∀ (l : List α) (i : Nat), l.findIdx? p = some i → i < l.length
  | [], _, h => by simp at h
  | a :: l, i, h => by
    rw [List.findIdx?_cons, List.findIdx?_succ] at h
    by_cases hp : p a
    · rw [if_pos hp] at h
      injection h with h
      simp [List.length_cons]
      omega
    · rw [if_neg hp, Option.map_eq_some'] at h
      obtain ⟨j, hj, hij⟩ := h
      have := findIdx?_lt_length p l j hj
      simp [List.length_cons]
      omega

theorem takeDrop_of_findIdx? {α : Type} (p : α → Bool) :
    ∀ (l : List α) (i : Nat), l.findIdx? p = some i →
      l.take i ++ l.drop (i + 1) = l.eraseP p
  | [], _, h => by simp at h
  | a :: l, i, h => by
    rw [List.findIdx?_cons, List.findIdx?_succ] at h
    by_cases hp : p a
    · rw [if_pos hp] at h
      injection h with h
      subst h
      simp [List.eraseP_cons_of_pos hp]
    · rw [if_neg hp, Option.map_eq_some'] at h
      obtain ⟨j, hj, hij⟩ := h
      subst hij
      simp only [List.take_succ_cons, List.drop_succ_cons, List.cons_append,
        List.eraseP_cons_of_neg hp]
      rw [takeDrop_of_findIdx? p l j hj]

/-- `splice(indexOf(x), 1)` over a mapped key list removes exactly the
first element whose key is `x`, provided such an element exists. -/
theorem jsSplice1_jsIndexOf_eraseP {α : Type} (f : α → String) (x : String)
    (l : List α) (h : ∃ a ∈ l, f a = x) :
    jsSplice1 l (jsIndexOf (l.map f) x) = l.eraseP (fun a => f a == x) := by
  have hmap : (l.map f).findIdx? (fun y => y == x) =
      l.findIdx? (fun a => f a == x) := findIdx?_map_comp f (fun y => y == x) l
  obtain ⟨a, ha, hfa⟩ := h
  have hne : l.findIdx? (fun a => f a == x) ≠ none := by
    intro hnone
    rw [List.findIdx?_eq_none_iff] at hnone
    have := hnone a ha
    simp [hfa] at this
  obtain ⟨i, hi⟩ := Option.ne_none_iff_exists'.mp hne
  have hlt : i < l.length := findIdx?_lt_length _ l i hi
  rw [jsIndexOf, hmap, hi]
  show jsSplice1 l (i : Int) = _
  have hnneg : ¬((i : Int) < 0) := by omega
  rw [jsSplice1]
  simp only [hnneg, if_neg, Int.toNat_ofNat, Nat.min_eq_left (Nat.le_of_lt hlt)]
  exact takeDrop_of_findIdx? _ l i hi

/-- `splice(-1, 1)` removes the last element (and leaves an empty array
empty). -/
theorem jsSplice1_neg_one {α : Type} (l : List α) :
    jsSplice1 l (-1) = l.dropLast := by
  cases l with
  | nil => rfl
  | cons a l =>
    rw [jsSplice1]
    have h1 : ((-1 : Int) < 0) := by omega
    simp only [h1, if_pos]
    have h2 : (((a :: l).length : Int) + (-1)).toNat = (a :: l).length - 1 := by
      simp only [List.length_cons]
      omega
    rw [h2, List.dropLast_eq_take]
    have h3 : (a :: l).length - 1 + 1 = (a :: l).length := by
      simp only [List.length_cons]
      omega
    rw [h3, List.drop_length, List.append_nil]

/-- When the key is absent, JS `indexOf` yields `-1`. -/
theorem jsIndexOf_eq_neg_one {l : List String} {x : String} (h : x ∉ l) :
    jsIndexOf l x = -1 := by
  rw [jsIndexOf]
  have : l.findIdx? (fun y => y == x) = none := by
    rw [List.findIdx?_eq_none_iff]
    intro y hy
    simp only [beq_eq_false_iff_ne, ne_eq]
    intro rfl_eq
    exact h (rfl_eq ▸ hy)
  rw [this]

/-- In a collection whose ids are distinct (the persistence layer mints
unique identifiers), erasing the document with a given id leaves no
document with that id behind. -/
theorem findPost_eraseP_eq_none :
    ∀ (l : List Post) (pid : String), (l.map Post.id).Nodup →
      (l.eraseP (fun p => p.id == pid)).find? (fun p => p.id == pid) = none := by
  intro l
  induction l with
  | nil => intro pid _; rfl
  | cons a l ih =>
    intro pid hnd
    rw [List.map_cons, List.nodup_cons] at hnd
    by_cases ha : a.id == pid
    · rw [List.eraseP_cons_of_pos (p := fun q : Post => q.id == pid) ha]
      rw [List.find?_eq_none]
      intro x hx hpx
      have hxid : x.id = pid := by
        simpa using hpx
      have haid : a.id = pid := by
        simpa using ha
      exact hnd.1 (haid ▸ hxid ▸ List.mem_map_of_mem Post.id hx)
    · rw [List.eraseP_cons_of_neg (p := fun q : Post => q.id == pid) ha,
        List.find?_cons_of_neg (p := fun q : Post => q.id == pid) _ ha]
      exact ih pid hnd.2

/-! ### Claim theorems -/

/-- C4: for every request to a protected route, a missing `x-auth-token`
header rejects with 401 "No token, authorization denied"; a present but
unverifiable token rejects with 401 "Token is not valid"; every rejection
has status 401 (never 500, never success); a valid token attaches the
decoded payload's `user` to the request context and proceeds. -/
theorem credentialVerifier_401_paths :
    (∀ verify : String → Option Payload,
      authMiddleware verify none
        = Sum.inl ⟨401, Body.msg "No token, authorization denied"⟩)
  ∧ (∀ (verify : String → Option Payload) (tok : String), verify tok = none →
      authMiddleware verify (some tok)
        = Sum.inl ⟨401, Body.msg "Token is not valid"⟩)
  ∧ (∀ (verify : String → Option Payload) (header : Option String) (r : Resp),
      authMiddleware verify header = Sum.inl r → r.status = 401)
  ∧ (∀ (verify : String → Option Payload) (tok : String) (d : Payload),
      verify tok = some d →
      authMiddleware verify (some tok) = Sum.inr d.user) := by
  refine ⟨fun verify => rfl, fun verify tok h => ?_, ?_, fun verify tok d h => ?_⟩
  · rw [authMiddleware, h]
  · intro verify header r h
    match header with
    | none =>
      rw [authMiddleware] at h
      cases h
      rfl
    | some tok =>
      rw [authMiddleware] at h
      match hv : verify tok with
      | none => rw [hv] at h; cases h; rfl
      | some d => rw [hv] at h; cases h
  · rw [authMiddleware, h]

/-- C4 witness: concrete instances of each hypothesis-bearing case. -/
theorem credentialVerifier_401_paths_witness :
    authMiddleware (fun _ => (none : Option Payload)) (some "tok")
        = Sum.inl ⟨401, Body.msg "Token is not valid"⟩
  ∧ authMiddleware (fun _ => some ⟨⟨"u7"⟩⟩) (some "tok") = Sum.inr ⟨"u7"⟩ :=
  ⟨credentialVerifier_401_paths.2.1 (fun _ => none) "tok" rfl,
   credentialVerifier_401_paths.2.2.2 (fun _ => some ⟨⟨"u7"⟩⟩) "tok" ⟨⟨"u7"⟩⟩ rfl⟩

/-- C5: authentication rejects 400 with the identical body
`"Invalid Credentials"` both when no user carries the email and when the
password comparison fails (the two causes are indistinguishable to the
client); on success it signs the same token shape as registration, a
payload `{user: {id}}` with `expiresIn` 360000. -/
theorem authenticate_uniform_failure_and_token :
    (∀ (cmp : String → String → Bool) (sign : SignReq → Except Unit String)
        (db : List User) (email password : String),
      db.find? (fun u => u.email == email) = none →
      authenticate [] cmp sign db email password
        = ⟨400, Body.errMsgs ["Invalid Credentials"]⟩)
  ∧ (∀ (cmp : String → String → Bool) (sign : SignReq → Except Unit String)
        (db : List User) (email password : String) (u : User),
      db.find? (fun u => u.email == email) = some u →
      cmp password u.password = false →
      authenticate [] cmp sign db email password
        = ⟨400, Body.errMsgs ["Invalid Credentials"]⟩)
  ∧ (∀ (cmp1 : String → String → Bool) (sign1 : SignReq → Except Unit String)
        (db1 : List User) (email1 pw1 : String)
        (cmp2 : String → String → Bool) (sign2 : SignReq → Except Unit String)
        (db2 : List User) (email2 pw2 : String) (u : User),
      db1.find? (fun v => v.email == email1) = none →
      db2.find? (fun v => v.email == email2) = some u →
      cmp2 pw2 u.password = false →
      authenticate [] cmp1 sign1 db1 email1 pw1
        = authenticate [] cmp2 sign2 db2 email2 pw2)
  ∧ (∀ (cmp : String → String → Bool) (sign : SignReq → Except Unit String)
        (db : List User) (email password : String) (u : User) (t : String),
      db.find? (fun u => u.email == email) = some u →
      cmp password u.password = true →
      sign ⟨⟨⟨u.id⟩⟩, 360000⟩ = Except.ok t →
      authenticate [] cmp sign db email password = ⟨200, Body.token t⟩) := by
  have fail1 : ∀ (cmp : String → String → Bool) (sign : SignReq → Except Unit String)
      (db : List User) (email password : String),
      db.find? (fun u => u.email == email) = none →
      authenticate [] cmp sign db email password
        = ⟨400, Body.errMsgs ["Invalid Credentials"]⟩ := by
    intro cmp sign db email password h
    rw [authenticate]
    simp only [List.isEmpty_nil, if_pos, h]
  have fail2 : ∀ (cmp : String → String → Bool) (sign : SignReq → Except Unit String)
      (db : List User) (email password : String) (u : User),
      db.find? (fun u => u.email == email) = some u →
      cmp password u.password = false →
      authenticate [] cmp sign db email password
        = ⟨400, Body.errMsgs ["Invalid Credentials"]⟩ := by
    intro cmp sign db email password u h hc
    rw [authenticate]
    simp only [List.isEmpty_nil, if_pos, h, hc, Bool.false_eq_true, if_neg,
      not_false_iff]
  refine ⟨fail1, fail2, ?_, ?_⟩
  · intro cmp1 sign1 db1 email1 pw1 cmp2 sign2 db2 email2 pw2 u h1 h2 hc
    rw [fail1 cmp1 sign1 db1 email1 pw1 h1, fail2 cmp2 sign2 db2 email2 pw2 u h2 hc]
  · intro cmp sign db email password u t h hc hs
    rw [authenticate]
    simp only [List.isEmpty_nil, if_pos, h, hc, if_pos, hs]

/-- C5 witness: a concrete store where both failure causes produce the
same response, and a concrete success returns the signed token. -/
theorem authenticate_uniform_failure_and_token_witness :
    authenticate [] (fun _ _ => false) (fun _ => Except.ok "T")
        [⟨"u1", "Ann", "a@x.io", "av", "HASH"⟩] "b@x.io" "pw"
      = authenticate [] (fun _ _ => false) (fun _ => Except.ok "T")
        [⟨"u1", "Ann", "a@x.io", "av", "HASH"⟩] "a@x.io" "pw"
  ∧ authenticate [] (fun _ _ => true) (fun _ => Except.ok "T")
        [⟨"u1", "Ann", "a@x.io", "av", "HASH"⟩] "a@x.io" "pw"
      = ⟨200, Body.token "T"⟩ :=
  ⟨authenticate_uniform_failure_and_token.2.2.1
      (fun _ _ => false) (fun _ => Except.ok "T")
      [⟨"u1", "Ann", "a@x.io", "av", "HASH"⟩] "b@x.io" "pw"
      (fun _ _ => false) (fun _ => Except.ok "T")
      [⟨"u1", "Ann", "a@x.io", "av", "HASH"⟩] "a@x.io" "pw"
      ⟨"u1", "Ann", "a@x.io", "av", "HASH"⟩ (by decide) (by decide) rfl,
   authenticate_uniform_failure_and_token.2.2.2
      (fun _ _ => true) (fun _ => Except.ok "T")
      [⟨"u1", "Ann", "a@x.io", "av", "HASH"⟩] "a@x.io" "pw"
      ⟨"u1", "Ann", "a@x.io", "av", "HASH"⟩ "T" (by decide) rfl rfl⟩

/-- C9: with validation passed, registering an email that already has a
user rejects 400; a fresh email persists the new user (gravatar avatar,
hashed password) and returns the token signed over `{user: {id}}` with
`expiresIn` 360000 seconds (100 hours); registering the same email again
afterwards rejects 400. -/
theorem register_duplicate_then_token :
    (∀ (grav hash : String → String) (sign : SignReq → Except Unit String)
        (newId : String) (db : List User) (name email password : String) (u : User),
      db.find? (fun v => v.email == email) = some u →
      register [] grav hash sign newId db name email password
        = (⟨400, Body.errMsgs ["User already exists"]⟩, db))
  ∧ (∀ (grav hash : String → String) (sign : SignReq → Except Unit String)
        (newId : String) (db : List User) (name email password : String) (t : String),
      db.find? (fun v => v.email == email) = none →
      sign ⟨⟨⟨newId⟩⟩, 360000⟩ = Except.ok t →
      register [] grav hash sign newId db name email password
        = (⟨200, Body.token t⟩,
           db ++ [⟨newId, name, email, grav email, hash password⟩])
      ∧ ∀ (grav2 hash2 : String → String) (sign2 : SignReq → Except Unit String)
          (newId2 name2 password2 : String),
        (register [] grav2 hash2 sign2 newId2
            (register [] grav hash sign newId db name email password).snd
            name2 email password2).fst
          = ⟨400, Body.errMsgs ["User already exists"]⟩) := by
  have dup : ∀ (grav hash : String → String) (sign : SignReq → Except Unit String)
      (newId : String) (db : List User) (name email password : String) (u : User),
      db.find? (fun v => v.email == email) = some u →
      register [] grav hash sign newId db name email password
        = (⟨400, Body.errMsgs ["User already exists"]⟩, db) := by
    intro grav hash sign newId db name email password u h
    rw [register]
    simp only [List.isEmpty_nil, if_pos, h]
  have fresh : ∀ (grav hash : String → String) (sign : SignReq → Except Unit String)
      (newId : String) (db : List User) (name email password : String) (t : String),
      db.find? (fun v => v.email == email) = none →
      sign ⟨⟨⟨newId⟩⟩, 360000⟩ = Except.ok t →
      register [] grav hash sign newId db name email password
        = (⟨200, Body.token t⟩,
           db ++ [⟨newId, name, email, grav email, hash password⟩]) := by
    intro grav hash sign newId db name email password t h hs
    rw [register]
    simp only [List.isEmpty_nil, if_pos, h, hs]
  refine ⟨dup, ?_⟩
  intro grav hash sign newId db name email password t h hs
  refine ⟨fresh grav hash sign newId db name email password t h hs, ?_⟩
  intro grav2 hash2 sign2 newId2 name2 password2
  rw [fresh grav hash sign newId db name email password t h hs]
  have hfind : (db ++ [(⟨newId, name, email, grav email, hash password⟩ : User)]).find?
      (fun v => v.email == email)
      = some (⟨newId, name, email, grav email, hash password⟩ : User) := by
    rw [List.find?_append, h]
    simp [List.find?_cons]
  rw [dup grav2 hash2 sign2 newId2 _ name2 email password2 _ hfind]

/-- C9 witness: a concrete double registration — success with the
expected persisted store and token, then a 400 duplicate rejection. -/
theorem register_duplicate_then_token_witness :
    register [] (fun _ => "G") (fun _ => "H") (fun _ => Except.ok "T") "id1"
        [] "Ann" "a@x.io" "secret"
      = (⟨200, Body.token "T"⟩, [⟨"id1", "Ann", "a@x.io", "G", "H"⟩])
  ∧ (register [] (fun _ => "G") (fun _ => "H") (fun _ => Except.ok "T") "id2"
        (register [] (fun _ => "G") (fun _ => "H") (fun _ => Except.ok "T") "id1"
          [] "Ann" "a@x.io" "secret").snd
        "Bea" "a@x.io" "other").fst
      = ⟨400, Body.errMsgs ["User already exists"]⟩ :=
  ⟨(register_duplicate_then_token.2 (fun _ => "G") (fun _ => "H")
      (fun _ => Except.ok "T") "id1" [] "Ann" "a@x.io" "secret" "T" rfl rfl).1,
   (register_duplicate_then_token.2 (fun _ => "G") (fun _ => "H")
      (fun _ => Except.ok "T") "id1" [] "Ann" "a@x.io" "secret" "T" rfl rfl).2
      (fun _ => "G") (fun _ => "H") (fun _ => Except.ok "T") "id2" "Bea" "other"⟩

/-- C10: when the post id matches no document (absent, or malformed so
`findById` throws), `likePost` and `unlikePost` answer 500 "Server
Error" — not 404 — because the missing post is dereferenced without a
null check and the error falls into the catch-all; the store is
unchanged. -/
theorem like_unlike_missing_post_500 :
    ∀ (vd : String → Bool) (db : List Post) (uid pid : String),
      (vd pid = false ∨ findPost db pid = none) →
      likePost vd db uid pid = (⟨500, Body.text "Server Error"⟩, db)
      ∧ unlikePost vd db uid pid = (⟨500, Body.text "Server Error"⟩, db) := by
  intro vd db uid pid h
  by_cases hv : vd pid
  · have hfind : findPost db pid = none := by
      rcases h with h | h
      · rw [hv] at h
        cases h
      · exact h
    constructor
    · rw [likePost, if_pos hv, hfind]
    · rw [unlikePost, if_pos hv, hfind]
  · constructor
    · rw [likePost, if_neg hv]
    · rw [unlikePost, if_neg hv]

/-- C10 witness: a concrete absent post id and a concrete malformed id
both produce 500 for like and unlike with the store untouched. -/
theorem like_unlike_missing_post_500_witness :
    likePost (fun _ => true) [] "u" "p9" = (⟨500, Body.text "Server Error"⟩, [])
  ∧ unlikePost (fun _ => false) [] "u" "bad-id"
      = (⟨500, Body.text "Server Error"⟩, []) :=
  ⟨(like_unlike_missing_post_500 (fun _ => true) [] "u" "p9" (Or.inr rfl)).1,
   (like_unlike_missing_post_500 (fun _ => false) [] "u" "bad-id" (Or.inl rfl)).2⟩

/-- C7: deleting a post answers 404 when no post with the id exists, 401
with the store unchanged when the post's owner differs from the caller,
and otherwise removes the post so that a subsequent `getPost` for the
same id answers 404 (ids in the store are distinct, as minted by the
persistence layer). -/
theorem deletePost_notfound_unauthorized_delete :
    (∀ (vd : String → Bool) (db : List Post) (uid pid : String),
      vd pid = true → findPost db pid = none →
      deletePost vd db uid pid = (⟨404, Body.msg "Post not found"⟩, db))
  ∧ (∀ (vd : String → Bool) (db : List Post) (uid pid : String) (post : Post),
      vd pid = true → findPost db pid = some post → post.user ≠ uid →
      deletePost vd db uid pid = (⟨401, Body.msg "User not authorized"⟩, db))
  ∧ (∀ (vd : String → Bool) (db : List Post) (uid pid : String) (post : Post),
      vd pid = true → findPost db pid = some post → post.user = uid →
      (db.map Post.id).Nodup →
      (deletePost vd db uid pid).fst = ⟨200, Body.msg "Post removed!"⟩
      ∧ getPost vd (deletePost vd db uid pid).snd pid
          = ⟨404, Body.msg "Post not found"⟩) := by
  refine ⟨?_, ?_, ?_⟩
  · intro vd db uid pid hv hf
    rw [deletePost, if_pos hv, hf]
  · intro vd db uid pid post hv hf hu
    have hb : (post.user == uid) = false := by
      simpa using hu
    simp [deletePost, hv, hf, hb]
  · intro vd db uid pid post hv hf hu hnd
    have hb : (post.user == uid) = true := by
      simpa using hu
    have hdel : deletePost vd db uid pid
        = (⟨200, Body.msg "Post removed!"⟩, db.eraseP (fun p => p.id == pid)) := by
      simp [deletePost, hv, hf, hb]
    refine ⟨by rw [hdel], ?_⟩
    rw [hdel, getPost, if_pos hv, findPost, findPost_eraseP_eq_none db pid hnd]

/-- C7 witness: a one-post store; the owner deletes the post and a
subsequent fetch answers 404; a different caller is rejected 401. -/
theorem deletePost_notfound_unauthorized_delete_witness :
    deletePost (fun _ => true) [⟨"p1", "hi", "Ann", "av", "alice", [], []⟩]
        "bob" "p1"
      = (⟨401, Body.msg "User not authorized"⟩,
         [⟨"p1", "hi", "Ann", "av", "alice", [], []⟩])
  ∧ (deletePost (fun _ => true) [⟨"p1", "hi", "Ann", "av", "alice", [], []⟩]
        "alice" "p1").fst = ⟨200, Body.msg "Post removed!"⟩
  ∧ getPost (fun _ => true)
      (deletePost (fun _ => true) [⟨"p1", "hi", "Ann", "av", "alice", [], []⟩]
        "alice" "p1").snd "p1"
      = ⟨404, Body.msg "Post not found"⟩ :=
  ⟨deletePost_notfound_unauthorized_delete.2.1 (fun _ => true)
      [⟨"p1", "hi", "Ann", "av", "alice", [], []⟩] "bob" "p1"
      ⟨"p1", "hi", "Ann", "av", "alice", [], []⟩ rfl rfl (by decide),
   (deletePost_notfound_unauthorized_delete.2.2 (fun _ => true)
      [⟨"p1", "hi", "Ann", "av", "alice", [], []⟩] "alice" "p1"
      ⟨"p1", "hi", "Ann", "av", "alice", [], []⟩ rfl rfl rfl (by decide)).1,
   (deletePost_notfound_unauthorized_delete.2.2 (fun _ => true)
      [⟨"p1", "hi", "Ann", "av", "alice", [], []⟩] "alice" "p1"
      ⟨"p1", "hi", "Ann", "av", "alice", [], []⟩ rfl rfl rfl (by decide)).2⟩

/-- A nonempty filter over a key equality yields an element with that
key. -/
theorem exists_key_of_filter_pos {α : Type} (f : α → String) {l : List α} {x : String}
    (h : 0 < (l.filter (fun a => f a == x)).length) : ∃ a ∈ l, f a = x := by
  rw [List.length_pos] at h
  match hl : l.filter (fun a => f a == x) with
  | [] => exact absurd hl h
  | a :: _ =>
    have ha : a ∈ l.filter (fun a => f a == x) := by
      rw [hl]
      exact List.mem_cons_self a _
    rw [List.mem_filter] at ha
    exact ⟨a, ha.1, by simpa using ha.2⟩

/-- An empty filter over a key equality means the key is not among the
mapped keys. -/
theorem not_mem_map_of_filter_len_zero {α : Type} (f : α → String) {l : List α}
    {x : String} (h : (l.filter (fun a => f a == x)).length = 0) :
    x ∉ l.map f := by
  rw [List.length_eq_zero, List.filter_eq_nil_iff] at h
  intro hm
  obtain ⟨a, ha, haeq⟩ := List.mem_map.mp hm
  exact h a ha (by simp [haeq])

/-- C6: a user appears at most once in a post's like list (its mapped
user list has no duplicates), and like/unlike preserve this: liking with
the caller already present rejects 400 and changes nothing; otherwise
exactly one entry for the caller is prepended and returned; unliking
with the caller absent rejects 400 and changes nothing; otherwise the
caller's (first) entry is removed and the updated list returned. -/
theorem like_unlike_at_most_once_invariant :
    ∀ (vd : String → Bool) (db : List Post) (uid pid : String) (post : Post),
      vd pid = true → findPost db pid = some post →
      ((0 < (post.likes.filter (fun lk => lk.user == uid)).length →
          likePost vd db uid pid
            = (⟨400, Body.msg "Bad Request: Post already liked"⟩, db))
      ∧ ((post.likes.filter (fun lk => lk.user == uid)).length = 0 →
          likePost vd db uid pid
            = (⟨200, Body.likesList (⟨uid⟩ :: post.likes)⟩,
               updatePost db { post with likes := ⟨uid⟩ :: post.likes })
          ∧ ((post.likes.map LikeEntry.user).Nodup →
              ((⟨uid⟩ :: post.likes).map LikeEntry.user).Nodup))
      ∧ ((post.likes.filter (fun lk => lk.user == uid)).length = 0 →
          unlikePost vd db uid pid
            = (⟨400, Body.msg "Bad Request: Post has not yet been liked"⟩, db))
      ∧ (0 < (post.likes.filter (fun lk => lk.user == uid)).length →
          unlikePost vd db uid pid
            = (⟨200, Body.likesList (post.likes.eraseP (fun lk => lk.user == uid))⟩,
               updatePost db
                 { post with likes := post.likes.eraseP (fun lk => lk.user == uid) })
          ∧ ((post.likes.map LikeEntry.user).Nodup →
              ((post.likes.eraseP (fun lk => lk.user == uid)).map
                LikeEntry.user).Nodup))) := by
  intro vd db uid pid post hv hf
  refine ⟨?_, ?_, ?_, ?_⟩
  · intro hpos
    simp [likePost, hv, hf, hpos]
  · intro hzero
    constructor
    · have : ¬(0 < (post.likes.filter (fun lk => lk.user == uid)).length) := by
        omega
      simp [likePost, hv, hf, this]
    · intro hnd
      rw [List.map_cons, List.nodup_cons]
      exact ⟨not_mem_map_of_filter_len_zero LikeEntry.user hzero, hnd⟩
  · intro hzero
    simp [unlikePost, hv, hf, hzero]
  · intro hpos
    have hlen : (post.likes.filter (fun lk => lk.user == uid)).length ≠ 0 := by
      omega
    have hne : ((post.likes.filter (fun lk => lk.user == uid)).length == 0) = false := by
      simpa using hlen
    have hex : ∃ lk ∈ post.likes, lk.user = uid :=
      exists_key_of_filter_pos LikeEntry.user hpos
    have hsplice : jsSplice1 post.likes
        (jsIndexOf (post.likes.map (fun lk => lk.user)) uid)
        = post.likes.eraseP (fun lk => lk.user == uid) :=
      jsSplice1_jsIndexOf_eraseP LikeEntry.user uid post.likes hex
    constructor
    · simp only [unlikePost, hv, if_pos, hf, hne, Bool.false_eq_true, if_neg,
        not_false_iff, hsplice]
    · intro hnd
      exact ((List.eraseP_sublist post.likes).map LikeEntry.user).nodup hnd

/-- C6 witness: one like entry for "bob"; "bob" re-liking rejects 400,
"ann" liking prepends, "ann" unliking rejects 400, "bob" unliking
removes his entry; the singleton list has no duplicate user. -/
theorem like_unlike_at_most_once_invariant_witness :
    likePost (fun _ => true) [⟨"p1", "hi", "Ann", "av", "alice", [⟨"bob"⟩], []⟩]
        "bob" "p1"
      = (⟨400, Body.msg "Bad Request: Post already liked"⟩,
         [⟨"p1", "hi", "Ann", "av", "alice", [⟨"bob"⟩], []⟩])
  ∧ likePost (fun _ => true) [⟨"p1", "hi", "Ann", "av", "alice", [⟨"bob"⟩], []⟩]
        "ann" "p1"
      = (⟨200, Body.likesList [⟨"ann"⟩, ⟨"bob"⟩]⟩,
         [⟨"p1", "hi", "Ann", "av", "alice", [⟨"ann"⟩, ⟨"bob"⟩], []⟩])
  ∧ unlikePost (fun _ => true) [⟨"p1", "hi", "Ann", "av", "alice", [⟨"bob"⟩], []⟩]
        "ann" "p1"
      = (⟨400, Body.msg "Bad Request: Post has not yet been liked"⟩,
         [⟨"p1", "hi", "Ann", "av", "alice", [⟨"bob"⟩], []⟩])
  ∧ unlikePost (fun _ => true) [⟨"p1", "hi", "Ann", "av", "alice", [⟨"bob"⟩], []⟩]
        "bob" "p1"
      = (⟨200, Body.likesList []⟩, [⟨"p1", "hi", "Ann", "av", "alice", [], []⟩]) := by
  refine ⟨?_, ?_, ?_, ?_⟩
  · exact (like_unlike_at_most_once_invariant (fun _ => true)
      [⟨"p1", "hi", "Ann", "av", "alice", [⟨"bob"⟩], []⟩] "bob" "p1"
      ⟨"p1", "hi", "Ann", "av", "alice", [⟨"bob"⟩], []⟩ rfl rfl).1 (by decide)
  · exact ((like_unlike_at_most_once_invariant (fun _ => true)
      [⟨"p1", "hi", "Ann", "av", "alice", [⟨"bob"⟩], []⟩] "ann" "p1"
      ⟨"p1", "hi", "Ann", "av", "alice", [⟨"bob"⟩], []⟩ rfl rfl).2.1 (by decide)).1
  · exact (like_unlike_at_most_once_invariant (fun _ => true)
      [⟨"p1", "hi", "Ann", "av", "alice", [⟨"bob"⟩], []⟩] "ann" "p1"
      ⟨"p1", "hi", "Ann", "av", "alice", [⟨"bob"⟩], []⟩ rfl rfl).2.2.1 (by decide)
  · exact ((like_unlike_at_most_once_invariant (fun _ => true)
      [⟨"p1", "hi", "Ann", "av", "alice", [⟨"bob"⟩], []⟩] "bob" "p1"
      ⟨"p1", "hi", "Ann", "av", "alice", [⟨"bob"⟩], []⟩ rfl rfl).2.2.2 (by decide)).1

/-- C1: comment removal locates the comment by `comment_id` (404 when
absent, 401 with the store unchanged when its owner is not the caller),
but the removal index is computed by matching the CALLER's id against
comment owners, so on success the comment removed is the first comment
in the list owned by the caller — which can differ from the comment
located by `comment_id`, as the closing concrete conjunct shows: asking
to delete comment "c2" removes "c1" and leaves "c2" in place. -/
theorem removeComment_removes_first_owned_comment :
    (∀ (vd : String → Bool) (db : List Post) (uid pid cid : String) (post : Post),
      vd pid = true → findPost db pid = some post →
      (post.comments.find? (fun c => c.id == cid) = none →
        removeComment vd db uid pid cid
          = (⟨404, Body.msg "Comment does not exist"⟩, db))
      ∧ (∀ comment : Comment,
          post.comments.find? (fun c => c.id == cid) = some comment →
          comment.user ≠ uid →
          removeComment vd db uid pid cid
            = (⟨401, Body.msg "User not authorized"⟩, db))
      ∧ (∀ comment : Comment,
          post.comments.find? (fun c => c.id == cid) = some comment →
          comment.user = uid →
          removeComment vd db uid pid cid
            = (⟨200, Body.commentList
                  (post.comments.eraseP (fun c => c.user == uid))⟩,
               updatePost db
                 { post with
                    comments := post.comments.eraseP (fun c => c.user == uid) })))
  ∧ removeComment (fun _ => true)
      [⟨"p1", "hello", "Ann", "av", "alice", [],
        [⟨"c1", "first", "Bea", "av2", "bob"⟩,
         ⟨"c2", "second", "Bea", "av2", "bob"⟩]⟩] "bob" "p1" "c2"
      = (⟨200, Body.commentList [⟨"c2", "second", "Bea", "av2", "bob"⟩]⟩,
         [⟨"p1", "hello", "Ann", "av", "alice", [],
           [⟨"c2", "second", "Bea", "av2", "bob"⟩]⟩]) := by
  constructor
  · intro vd db uid pid cid post hv hf
    refine ⟨?_, ?_, ?_⟩
    · intro hc
      simp [removeComment, hv, hf, hc]
    · intro comment hc hu
      have hb : (comment.user == uid) = false := by
        simpa using hu
      simp [removeComment, hv, hf, hc, hb]
    · intro comment hc hu
      have hb : (comment.user == uid) = true := by
        simpa using hu
      have hmem : comment ∈ post.comments := List.mem_of_find?_eq_some hc
      have hex : ∃ c ∈ post.comments, c.user = uid := ⟨comment, hmem, hu⟩
      have hsplice : jsSplice1 post.comments
          (jsIndexOf (post.comments.map (fun c => c.user)) uid)
          = post.comments.eraseP (fun c => c.user == uid) :=
        jsSplice1_jsIndexOf_eraseP Comment.user uid post.comments hex
      simp only [removeComment, hv, if_pos, hf, hc, hb, Bool.not_true,
        Bool.false_eq_true, if_neg, not_false_iff, hsplice]
  · decide

/-- C1 witness: on a one-comment post, an unknown comment id answers
404, a non-owner caller answers 401, and the owner's deletion removes
the caller's first comment. -/
theorem removeComment_removes_first_owned_comment_witness :
    removeComment (fun _ => true)
        [⟨"p1", "hello", "Ann", "av", "alice", [],
          [⟨"c1", "x", "Bea", "av2", "bob"⟩]⟩] "bob" "p1" "zzz"
      = (⟨404, Body.msg "Comment does not exist"⟩,
         [⟨"p1", "hello", "Ann", "av", "alice", [],
           [⟨"c1", "x", "Bea", "av2", "bob"⟩]⟩])
  ∧ removeComment (fun _ => true)
        [⟨"p1", "hello", "Ann", "av", "alice", [],
          [⟨"c1", "x", "Bea", "av2", "bob"⟩]⟩] "eve" "p1" "c1"
      = (⟨401, Body.msg "User not authorized"⟩,
         [⟨"p1", "hello", "Ann", "av", "alice", [],
           [⟨"c1", "x", "Bea", "av2", "bob"⟩]⟩])
  ∧ removeComment (fun _ => true)
        [⟨"p1", "hello", "Ann", "av", "alice", [],
          [⟨"c1", "x", "Bea", "av2", "bob"⟩]⟩] "bob" "p1" "c1"
      = (⟨200, Body.commentList []⟩,
         [⟨"p1", "hello", "Ann", "av", "alice", [], []⟩]) :=
  ⟨(removeComment_removes_first_owned_comment.1 (fun _ => true)
      [⟨"p1", "hello", "Ann", "av", "alice", [],
        [⟨"c1", "x", "Bea", "av2", "bob"⟩]⟩] "bob" "p1" "zzz"
      ⟨"p1", "hello", "Ann", "av", "alice", [],
        [⟨"c1", "x", "Bea", "av2", "bob"⟩]⟩ rfl rfl).1 (by decide),
   (removeComment_removes_first_owned_comment.1 (fun _ => true)
      [⟨"p1", "hello", "Ann", "av", "alice", [],
        [⟨"c1", "x", "Bea", "av2", "bob"⟩]⟩] "eve" "p1" "c1"
      ⟨"p1", "hello", "Ann", "av", "alice", [],
        [⟨"c1", "x", "Bea", "av2", "bob"⟩]⟩ rfl rfl).2.1
      ⟨"c1", "x", "Bea", "av2", "bob"⟩ (by decide) (by decide),
   (removeComment_removes_first_owned_comment.1 (fun _ => true)
      [⟨"p1", "hello", "Ann", "av", "alice", [],
        [⟨"c1", "x", "Bea", "av2", "bob"⟩]⟩] "bob" "p1" "c1"
      ⟨"p1", "hello", "Ann", "av", "alice", [],
        [⟨"c1", "x", "Bea", "av2", "bob"⟩]⟩ rfl rfl).2.2
      ⟨"c1", "x", "Bea", "av2", "bob"⟩ (by decide) rfl⟩

/-- C2 counterexample: removing an experience entry by an identifier
that is NOT present does not return the profile unchanged — JS
`indexOf` yields -1 and `splice(-1, 1)` deletes the LAST entry.  On a
profile with one experience entry and an unknown `exp_id`, the stored
experience list becomes empty. -/
theorem removeExperience_absent_id_changes_profile :
    (removeExperience
        [{ user := "u1", status := "dev", skills := ["js"],
           experience := [{ id := "e1", title := some "Dev" }] }]
        "u1" "missing").snd
      = [{ user := "u1", status := "dev", skills := ["js"], experience := [] }]
  ∧ (removeExperience
        [{ user := "u1", status := "dev", skills := ["js"],
           experience := [{ id := "e1", title := some "Dev" }] }]
        "u1" "missing").snd
      ≠ [{ user := "u1", status := "dev", skills := ["js"],
           experience := [{ id := "e1", title := some "Dev" }] }] := by
  constructor
  · decide
  · decide

/-- C2 amended: experience/education removal with an identifier that is
not found raises no `NotFound`; the removal index defaults to -1, so
`splice(-1, 1)` removes the LAST entry of the list — the profile is
returned unchanged only when that list is already empty. -/
theorem removeEntry_absent_id_removes_last_entry :
    (∀ (db : List Profile) (uid expId : String) (profile : Profile),
      db.find? (fun q => q.user == uid) = some profile →
      expId ∉ profile.experience.map (fun item => item.id) →
      removeExperience db uid expId
        = (⟨200, Body.profileDoc
              { profile with experience := profile.experience.dropLast }⟩,
           updateProfile db
             { profile with experience := profile.experience.dropLast }))
  ∧ (∀ (db : List Profile) (uid eduId : String) (profile : Profile),
      db.find? (fun q => q.user == uid) = some profile →
      eduId ∉ profile.education.map (fun item => item.id) →
      removeEducation db uid eduId
        = (⟨200, Body.profileDoc
              { profile with education := profile.education.dropLast }⟩,
           updateProfile db
             { profile with education := profile.education.dropLast })) := by
  constructor
  · intro db uid expId profile hf hnm
    have h1 : jsIndexOf (profile.experience.map (fun item => item.id)) expId = -1 :=
      jsIndexOf_eq_neg_one hnm
    simp only [removeExperience, hf, h1, jsSplice1_neg_one]
  · intro db uid eduId profile hf hnm
    have h1 : jsIndexOf (profile.education.map (fun item => item.id)) eduId = -1 :=
      jsIndexOf_eq_neg_one hnm
    simp only [removeEducation, hf, h1, jsSplice1_neg_one]

/-- C2 amended witness: the one-entry profile loses its last experience
entry when an unknown id is given, and symmetrically for education. -/
theorem removeEntry_absent_id_removes_last_entry_witness :
    removeExperience
        [{ user := "u1", status := "dev", skills := ["js"],
           experience := [{ id := "e1", title := some "Dev" }] }]
        "u1" "missing"
      = (⟨200, Body.profileDoc
            { user := "u1", status := "dev", skills := ["js"], experience := [] }⟩,
         [{ user := "u1", status := "dev", skills := ["js"], experience := [] }])
  ∧ removeEducation
        [{ user := "u1", status := "dev", skills := ["js"],
           education := [{ id := "d1", school := some "MIT" }] }]
        "u1" "missing"
      = (⟨200, Body.profileDoc
            { user := "u1", status := "dev", skills := ["js"], education := [] }⟩,
         [{ user := "u1", status := "dev", skills := ["js"], education := [] }]) :=
  ⟨removeEntry_absent_id_removes_last_entry.1
      [{ user := "u1", status := "dev", skills := ["js"],
         experience := [{ id := "e1", title := some "Dev" }] }]
      "u1" "missing"
      { user := "u1", status := "dev", skills := ["js"],
        experience := [{ id := "e1", title := some "Dev" }] }
      (by decide) (by decide),
   removeEntry_absent_id_removes_last_entry.2
      [{ user := "u1", status := "dev", skills := ["js"],
         education := [{ id := "d1", school := some "MIT" }] }]
      "u1" "missing"
      { user := "u1", status := "dev", skills := ["js"],
        education := [{ id := "d1", school := some "MIT" }] }
      (by decide) (by decide)⟩

/-- Applying a conditionally-present `$set` key: present overwrites,
absent keeps the previous value. -/
theorem setOpt_spec (o prev : Option String) :
    (match (if truthy o then o else none) with
      | some v => some v
      | none => prev)
      = (if truthy o then o else prev) := by
  cases o with
  | none => simp [truthy]
  | some s =>
    by_cases h : truthy (some s)
    · simp [h]
    · simp [h]

/-- C3 counterexample: on an existing profile whose `social.youtube` is
set, an upsert whose input omits `youtube` (supplying only status,
skills and twitter) does NOT keep the previous value: `profileFields.social`
is always assigned, so `$set` replaces the whole `social` subdocument
and the stored youtube link is erased. -/
theorem upsertProfile_wipes_omitted_social_links :
    (upsertProfile
        [{ user := "u1", status := "dev", skills := ["js"],
           social := { youtube := some "y" } }]
        "u1" { status := some "dev", skills := some "a", twitter := some "t" }).snd
      = [{ user := "u1", status := "dev", skills := ["a"],
           social := { twitter := some "t" } }]
  ∧ (upsertProfile
        [{ user := "u1", status := "dev", skills := ["js"],
           social := { youtube := some "y" } }]
        "u1" { status := some "dev", skills := some "a", twitter := some "t" }).snd.map
        (fun p => p.social.youtube)
      ≠ [some "y"] := by
  constructor
  · decide
  · decide

/-- C3 amended: for an existing profile and a validation-passing input,
the upsert is sparse on the TOP-LEVEL fields (omitted or empty input
fields keep the stored value, present ones overwrite; experience and
education are untouched), but the `social` mapping is rebuilt from the
input alone, so social-link fields omitted from the input are cleared
rather than kept. -/
theorem upsertProfile_sparse_update_except_social :
    ∀ (db : List Profile) (uid : String) (b : UpsertInput) (p : Profile),
      truthy b.status = true → truthy b.skills = true →
      db.find? (fun q => q.user == uid) = some p →
      upsertProfile db uid b
          = (⟨200, Body.profileDoc (applySet p (buildProfileFields uid b))⟩,
             updateProfile db (applySet p (buildProfileFields uid b)))
        ∧ (applySet p (buildProfileFields uid b)).user = uid
        ∧ (applySet p (buildProfileFields uid b)).company
            = (if truthy b.company then b.company else p.company)
        ∧ (applySet p (buildProfileFields uid b)).website
            = (if truthy b.website then b.website else p.website)
        ∧ (applySet p (buildProfileFields uid b)).location
            = (if truthy b.location then b.location else p.location)
        ∧ (applySet p (buildProfileFields uid b)).bio
            = (if truthy b.bio then b.bio else p.bio)
        ∧ (applySet p (buildProfileFields uid b)).githubusername
            = (if truthy b.githubusername then b.githubusername else p.githubusername)
        ∧ (applySet p (buildProfileFields uid b)).status
            = (match b.status with | some s => s | none => p.status)
        ∧ (applySet p (buildProfileFields uid b)).skills
            = (match b.skills with
                | some s => normalizeSkills s
                | none => p.skills)
        ∧ (applySet p (buildProfileFields uid b)).social
            = { youtube := if truthy b.youtube then b.youtube else none
                twitter := if truthy b.twitter then b.twitter else none
                facebook := if truthy b.facebook then b.facebook else none
                linkedin := if truthy b.linkedin then b.linkedin else none
                instagram := if truthy b.instagram then b.instagram else none }
        ∧ (applySet p (buildProfileFields uid b)).experience = p.experience
        ∧ (applySet p (buildProfileFields uid b)).education = p.education := by
  intro db uid b p hstat hsk hf
  refine ⟨?_, ?_⟩
  · rw [upsertProfile]
    rw [hstat, hsk]
    simp only [Bool.and_self, if_pos, hf]
  · obtain ⟨st, hbst⟩ : ∃ st, b.status = some st := by
      cases hs : b.status with
      | none => rw [hs] at hstat; cases hstat
      | some v => exact ⟨v, rfl⟩
    obtain ⟨sk, hbsk⟩ : ∃ sk, b.skills = some sk ∧ (!(sk == "")) = true := by
      cases hs : b.skills with
      | none => rw [hs] at hsk; cases hsk
      | some v =>
        rw [hs] at hsk
        exact ⟨v, rfl, hsk⟩
    refine ⟨rfl, ?_, ?_, ?_, ?_, ?_, ?_, ?_, rfl, rfl, rfl⟩
    · exact setOpt_spec b.company p.company
    · exact setOpt_spec b.website p.website
    · exact setOpt_spec b.location p.location
    · exact setOpt_spec b.bio p.bio
    · exact setOpt_spec b.githubusername p.githubusername
    · show (match (if truthy b.status then b.status else none) with
        | some v => v
        | none => p.status) = _
      rw [hstat, if_pos, hbst]
      rfl
    · show (match (match b.skills with
          | some s => if !(s == "") then some (normalizeSkills s) else none
          | none => none) with
        | some v => v
        | none => p.skills) = _
      rw [hbsk.1]
      simp [hbsk.2]

/-- C3 amended witness: concrete upsert on an existing profile — company
(omitted) is kept, bio (present) is overwritten, experience is kept, and
the stored youtube social link is cleared while twitter is set. -/
theorem upsertProfile_sparse_update_except_social_witness :
    (applySet
        { user := "u1", company := some "Acme", bio := some "old",
          status := "dev", skills := ["js"],
          social := { youtube := some "y" },
          experience := [{ id := "e1" }] }
        (buildProfileFields "u1"
          { bio := some "new", status := some "dev", skills := some "a",
            twitter := some "t" })).company = some "Acme"
  ∧ (applySet
        { user := "u1", company := some "Acme", bio := some "old",
          status := "dev", skills := ["js"],
          social := { youtube := some "y" },
          experience := [{ id := "e1" }] }
        (buildProfileFields "u1"
          { bio := some "new", status := some "dev", skills := some "a",
            twitter := some "t" })).bio = some "new"
  ∧ (applySet
        { user := "u1", company := some "Acme", bio := some "old",
          status := "dev", skills := ["js"],
          social := { youtube := some "y" },
          experience := [{ id := "e1" }] }
        (buildProfileFields "u1"
          { bio := some "new", status := some "dev", skills := some "a",
            twitter := some "t" })).social = { twitter := some "t" }
  ∧ (applySet
        { user := "u1", company := some "Acme", bio := some "old",
          status := "dev", skills := ["js"],
          social := { youtube := some "y" },
          experience := [{ id := "e1" }] }
        (buildProfileFields "u1"
          { bio := some "new", status := some "dev", skills := some "a",
            twitter := some "t" })).experience = [{ id := "e1" }] := by
  obtain ⟨-, -, hcomp, -, -, hbio, -, -, -, hsoc, hexp, -⟩ :=
    upsertProfile_sparse_update_except_social
      [{ user := "u1", company := some "Acme", bio := some "old",
         status := "dev", skills := ["js"],
         social := { youtube := some "y" },
         experience := [{ id := "e1" }] }]
      "u1"
      { bio := some "new", status := some "dev", skills := some "a",
        twitter := some "t" }
      { user := "u1", company := some "Acme", bio := some "old",
        status := "dev", skills := ["js"],
        social := { youtube := some "y" },
        experience := [{ id := "e1" }] }
      (by decide) (by decide) (by decide)
  exact ⟨by simpa using hcomp, by simpa using hbio,
    by simpa using hsoc, hexp⟩

/-- C8: the upsert handler normalizes a present, non-empty skills input
by splitting on commas and trimming each segment, in order; the profile
stored by the upsert carries exactly that list; and on the concrete
input `"a, b ,c"` the normalization yields exactly `["a","b","c"]`. -/
theorem upsert_skills_normalization :
    (∀ (uid : String) (b : UpsertInput) (s : String),
      b.skills = some s → s ≠ "" →
      (buildProfileFields uid b).skills = some (normalizeSkills s))
  ∧ (∀ (db : List Profile) (uid : String) (b : UpsertInput) (s : String)
        (r : Resp) (db2 : List Profile) (p2 : Profile),
      truthy b.status = true → b.skills = some s → s ≠ "" →
      upsertProfile db uid b = (r, db2) → r = ⟨200, Body.profileDoc p2⟩ →
      p2.skills = normalizeSkills s)
  ∧ normalizeSkills "a, b ,c" = ["a", "b", "c"] := by
  have hbuild : ∀ (uid : String) (b : UpsertInput) (s : String),
      b.skills = some s → s ≠ "" →
      (buildProfileFields uid b).skills = some (normalizeSkills s) := by
    intro uid b s hb hs
    have hne : (!(s == "")) = true := by
      simpa using hs
    rw [buildProfileFields]
    rw [hb]
    simp only [hne, if_pos]
  refine ⟨hbuild, ?_, by decide⟩
  intro db uid b s r db2 p2 hstat hb hs hup hr
  have htr : truthy b.skills = true := by
    rw [hb, truthy]
    simpa using hs
  have hsk : (buildProfileFields uid b).skills = some (normalizeSkills s) :=
    hbuild uid b s hb hs
  cases hf : db.find? (fun q => q.user == uid) with
  | some p =>
    have hcalc : upsertProfile db uid b
        = (⟨200, Body.profileDoc (applySet p (buildProfileFields uid b))⟩,
           updateProfile db (applySet p (buildProfileFields uid b))) := by
      rw [upsertProfile, hstat, htr]
      simp only [Bool.and_self, if_pos, hf]
    rw [hcalc] at hup
    have h1 : (⟨200, Body.profileDoc (applySet p (buildProfileFields uid b))⟩ : Resp)
        = r := congrArg Prod.fst hup
    rw [hr] at h1
    have hp2 : applySet p (buildProfileFields uid b) = p2 := by
      have h2 := congrArg Resp.body h1
      injection h2
    rw [← hp2]
    show (match (buildProfileFields uid b).skills with
      | some v => v
      | none => p.skills) = normalizeSkills s
    rw [hsk]
  | none =>
    have hcalc : upsertProfile db uid b
        = (⟨200, Body.profileDoc (profileOfFields (buildProfileFields uid b))⟩,
           db ++ [profileOfFields (buildProfileFields uid b)]) := by
      rw [upsertProfile, hstat, htr]
      simp only [Bool.and_self, if_pos, hf]
    rw [hcalc] at hup
    have h1 : (⟨200, Body.profileDoc (profileOfFields (buildProfileFields uid b))⟩ : Resp)
        = r := congrArg Prod.fst hup
    rw [hr] at h1
    have hp2 : profileOfFields (buildProfileFields uid b) = p2 := by
      have h2 := congrArg Resp.body h1
      injection h2
    rw [← hp2]
    show (match (buildProfileFields uid b).skills with
      | some v => v
      | none => []) = normalizeSkills s
    rw [hsk]

/-- C8 witness: the concrete input `"a, b ,c"` flows through the upsert
into the stored skills list `["a","b","c"]`. -/
theorem upsert_skills_normalization_witness :
    (buildProfileFields "u1"
        { status := some "dev", skills := some "a, b ,c" }).skills
      = some (normalizeSkills "a, b ,c")
  ∧ ({ user := "u1", status := "dev", skills := ["a", "b", "c"] } : Profile).skills
      = normalizeSkills "a, b ,c" :=
  ⟨upsert_skills_normalization.1 "u1"
      { status := some "dev", skills := some "a, b ,c" } "a, b ,c" rfl (by decide),
   upsert_skills_normalization.2.1 [] "u1"
      { status := some "dev", skills := some "a, b ,c" } "a, b ,c"
      ⟨200, Body.profileDoc { user := "u1", status := "dev", skills := ["a", "b", "c"] }⟩
      [{ user := "u1", status := "dev", skills := ["a", "b", "c"] }]
      { user := "u1", status := "dev", skills := ["a", "b", "c"] }
      (by decide) rfl (by decide) (by decide) rfl⟩

end DevConnector
